import Mathlib

/-!
Shallow embedding of the Shopify inventory updater service (src/server.js)
and verification of its specification claims.

The service receives order lifecycle webhooks (created, cancelled,
fulfilled), keeps a process-wide set of processed order ids
(processedOrders), and adjusts inventory through the Shopify admin API.
The external platform is modelled by an environment giving the outcome of
each of the three API calls the service makes; every call the service
submits is recorded in a trace so that read/mutation counts and net
inventory deltas can be stated.
-/

namespace ShopifyInventory

/-- A line item of an order: variant identifier and ordered quantity. -/
structure LineItem where
  variant_id : Nat
  quantity : Nat
  deriving DecidableEq, Repr

/-- An order as delivered by a webhook body: platform id and line items. -/
structure Order where
  id : Nat
  line_items : List LineItem
  deriving DecidableEq, Repr

/-- One per-location inventory level row returned by the platform. -/
structure InventoryLevel where
  location_id : Nat
  available : Int
  deriving DecidableEq, Repr

/-- The external platform as observed through the three API calls the
service performs. A none result models a failed HTTP call; adjust_ok
tells whether the mutating adjustment call succeeds. -/
structure Env where
  variant_inventory_item : Nat → Option Nat
  inventory_levels : Nat → Option (List InventoryLevel)
  adjust_ok : Nat → Nat → Int → Bool

/-- An API call submitted by the service: the two reads and the one
mutating adjustment of updateInventoryForVariant. -/
inductive ApiCall where
  | getVariant (variantId : Nat)
  | getLevels (inventoryItemId : Nat)
  | adjust (locationId : Nat) (inventoryItemId : Nat) (delta : Int)
  deriving DecidableEq, Repr

/-- updateInventoryForVariant from src/server.js: resolve the variant to
its inventory item id, fetch the inventory levels, fail when the returned
list is empty, take the first level as location, and submit one adjustment
call. The returned trace lists every call submitted, in order; the
mutating call appears in the trace even when it fails, because the code
awaits the POST and only then propagates the error. -/
def updateInventoryForVariant (env : Env) (variantId : Nat) (adjustment : Int) :
    Except String Unit × List ApiCall :=
  match env.variant_inventory_item variantId with
  | none =>
      (Except.error "Inventory update failed: variant lookup failed",
       [ApiCall.getVariant variantId])
  | some inventoryItemId =>
      match env.inventory_levels inventoryItemId with
      | none =>
          (Except.error "Inventory update failed: inventory levels lookup failed",
           [ApiCall.getVariant variantId, ApiCall.getLevels inventoryItemId])
      | some [] =>
          (Except.error
             ("Inventory update failed: No inventory levels found for variant "
               ++ toString variantId),
           [ApiCall.getVariant variantId, ApiCall.getLevels inventoryItemId])
      | some (inventoryLevel :: _) =>
          let locationId := inventoryLevel.location_id
          let calls := [ApiCall.getVariant variantId,
                        ApiCall.getLevels inventoryItemId,
                        ApiCall.adjust locationId inventoryItemId adjustment]
          if env.adjust_ok locationId inventoryItemId adjustment then
            (Except.ok (), calls)
          else
            (Except.error "Inventory update failed: Shopify API Error", calls)

/-- Membership test of the processedOrders set (JavaScript Set.has),
the set being modelled as a list of keys. -/
def sContains : List String → String → Bool
  | [], _ => false
  | y :: ys, x => if y = x then true else sContains ys x

/-- JavaScript Set.add: insert the key when absent. -/
def sadd (s : List String) (x : String) : List String :=
  if sContains s x then s else x :: s

/-- JavaScript Set.delete: remove the key. -/
def sdel : List String → String → List String
  | [], _ => []
  | y :: ys, x => if y = x then sdel ys x else y :: sdel ys x

/-- updateInventoryForOrder from src/server.js: add the stringified order
id to processedOrders, then attempt a minus-quantity adjustment for every
line item, each attempt wrapped in try/catch so a failure never stops the
loop. Returns the new set and the concatenated call trace. -/
def updateInventoryForOrder (env : Env) (st : List String) (order : Order) :
    List String × List ApiCall :=
  let st1 := sadd st (toString order.id)
  (st1,
   (order.line_items.map (fun li =>
      (updateInventoryForVariant env li.variant_id (-(li.quantity : Int))).2)).flatten)

/-- What a webhook handler reports about the branch it took, mirroring
the distinct console.log lines of the three handlers. -/
inductive Obs where
  | deductionPass (oid : String)
  | restorePass (oid : String)
  | compensatePass (oid : String)
  | skipUntracked (oid : String)
  deriving DecidableEq, Repr

/-- Result of one webhook handler invocation: HTTP status, resulting
processedOrders set, submitted API calls, and the branch observation. -/
structure HResult where
  status : Nat
  st : List String
  calls : List ApiCall
  obs : Obs
  deriving Repr

/-- The POST /webhooks/order-created handler: run updateInventoryForOrder
and answer 200. -/
def orderCreatedHandler (env : Env) (st : List String) (order : Order) : HResult :=
  let r := updateInventoryForOrder env st order
  { status := 200, st := r.1, calls := r.2,
    obs := Obs.deductionPass (toString order.id) }

/-- The POST /webhooks/order-cancelled handler: skip with 200 when the
order is not in processedOrders; otherwise attempt a plus-quantity
adjustment per line item (each in try/catch), remove the order id, and
answer 200. -/
def orderCancelledHandler (env : Env) (st : List String) (order : Order) : HResult :=
  let key := toString order.id
  if sContains st key then
    { status := 200,
      st := sdel st key,
      calls := (order.line_items.map (fun li =>
        (updateInventoryForVariant env li.variant_id (li.quantity : Int)).2)).flatten,
      obs := Obs.restorePass key }
  else
    { status := 200, st := st, calls := [], obs := Obs.skipUntracked key }

/-- The POST /webhooks/order-fulfilled handler: skip with 200 when the
order is not in processedOrders; otherwise attempt a plus-quantity
compensation per line item (each in try/catch), remove the order id, and
answer 200. -/
def orderFulfilledHandler (env : Env) (st : List String) (order : Order) : HResult :=
  let key := toString order.id
  if sContains st key then
    { status := 200,
      st := sdel st key,
      calls := (order.line_items.map (fun li =>
        (updateInventoryForVariant env li.variant_id (li.quantity : Int)).2)).flatten,
      obs := Obs.compensatePass key }
  else
    { status := 200, st := st, calls := [], obs := Obs.skipUntracked key }

/-- A verified webhook delivery. -/
inductive Event where
  | created (o : Order)
  | cancelled (o : Order)
  | fulfilled (o : Order)

/-- Dispatch one verified event to its handler. -/
def processEvent (env : Env) (st : List String) : Event → HResult
  | Event.created o => orderCreatedHandler env st o
  | Event.cancelled o => orderCancelledHandler env st o
  | Event.fulfilled o => orderFulfilledHandler env st o

/-- Process a sequence of verified events from a given set state,
collecting the branch observations. -/
def runEvents (env : Env) (st : List String) : List Event → List String × List Obs
  | [] => (st, [])
  | ev :: rest =>
      let r := processEvent env st ev
      let t := runEvents env r.st rest
      (t.1, r.obs :: t.2)

/-- One step of the specification-side tracking state for a single order
id: a deduction pass for the id makes it tracked, a completed
restore/compensate pass for the id makes it untracked, everything else
leaves it alone. -/
def ghostStep (b : Bool) (oid : String) : Obs → Bool
  | Obs.deductionPass k => if k = oid then true else b
  | Obs.restorePass k => if k = oid then false else b
  | Obs.compensatePass k => if k = oid then false else b
  | Obs.skipUntracked _ => b

/-- Whether, according to the observation stream, a deduction pass was
performed for the id and no restoring/compensating pass has completed for
it since. -/
def ghostTracked (oid : String) (obss : List Obs) : Bool :=
  obss.foldl (fun b o => ghostStep b oid o) false

/-- Result of verifyWebhook from src/server.js: either 401 with the
handler never invoked, or control passed to the handler. -/
inductive VerifyResult where
  | unauthorized
  | next
  deriving DecidableEq, Repr

/-- verifyWebhook from src/server.js, parameterised by the HMAC-SHA256
base64 primitive of the crypto library (an external collaborator): hash
the body with the secret and compare to the header value with exact
string equality; a missing header never equals the computed hash. -/
def verifyWebhook (hmacBase64 : String → String → String) (secret : String)
    (hmacHeader : Option String) (body : String) : VerifyResult :=
  let hash := hmacBase64 secret body
  if hmacHeader = some hash then VerifyResult.next else VerifyResult.unauthorized

/-- Body of POST /test/process-order: both fields optional, as the
JavaScript destructuring can find either absent. -/
structure TestBody where
  orderId : Option Nat
  lineItems : Option (List LineItem)
  deriving Repr

/-- The test endpoint loop: no try/catch around the per-item call, so the
first failure aborts the loop; returns whether all attempted items
succeeded together with the submitted calls. -/
def runTestItems (env : Env) : List LineItem → Bool × List ApiCall
  | [] => (true, [])
  | li :: rest =>
      let r := updateInventoryForVariant env li.variant_id (-(li.quantity : Int))
      match r.1 with
      | Except.ok _ =>
          let t := runTestItems env rest
          (t.1, r.2 ++ t.2)
      | Except.error _ => (false, r.2)

/-- The POST /test/process-order handler. The JavaScript guard is
`if (!orderId || !lineItems)`, and 0 is falsy, so an orderId of 0 is
rejected with 400 exactly like a missing one. The processedOrders set is
never touched. -/
def testProcessOrder (env : Env) (st : List String) (body : TestBody) :
    Nat × List String × List ApiCall :=
  match body.orderId, body.lineItems with
  | some oid, some items =>
      if oid = 0 then (400, st, [])
      else
        let t := runTestItems env items
        (if t.1 then 200 else 500, st, t.2)
  | some _, none => (400, st, [])
  | none, _ => (400, st, [])

/-- Count of mutating (adjust) calls in a trace. -/
def countMutations : List ApiCall → Nat
  | [] => 0
  | ApiCall.adjust _ _ _ :: rest => countMutations rest + 1
  | _ :: rest => countMutations rest

/-- Count of read (GET) calls in a trace. -/
def countReads : List ApiCall → Nat
  | [] => 0
  | ApiCall.getVariant _ :: rest => countReads rest + 1
  | ApiCall.getLevels _ :: rest => countReads rest + 1
  | _ :: rest => countReads rest

/-- Net adjustment delta submitted against a given (location, inventory
item) pair over a trace. -/
def netDeltaAt (loc item : Nat) : List ApiCall → Int
  | [] => 0
  | ApiCall.adjust l i d :: rest =>
      (if l = loc ∧ i = item then d else 0) + netDeltaAt loc item rest
  | _ :: rest => netDeltaAt loc item rest

/-- A concrete platform used by the evaluation witnesses: variant 5
resolves to inventory item 77 with one level at location 3, variant 6
resolves to item 88 whose level list is empty, every other variant lookup
fails, and adjustments succeed everywhere except location 9. -/
def envW : Env where
  variant_inventory_item := fun v =>
    if v = 5 then some 77 else if v = 6 then some 88 else none
  inventory_levels := fun i =>
    if i = 77 then some [{ location_id := 3, available := 10 }]
    else if i = 88 then some [] else none
  adjust_ok := fun l _ _ => decide (l ≠ 9)

/-! ### Lemmas about the processedOrders set operations -/

theorem sContains_sadd (s : List String) (x y : String) :
    sContains (sadd s x) y = if x = y then true else sContains s y := by
  unfold sadd
  by_cases h : sContains s x = true
  · rw [if_pos h]
    split_ifs with hxy
    · subst hxy; exact h
    · rfl
  · rw [if_neg h]
    rfl

theorem sContains_sdel (s : List String) (x y : String) :
    sContains (sdel s x) y = if x = y then false else sContains s y := by
  induction s with
  | nil => simp [sdel, sContains]
  | cons z zs ih =>
      simp only [sdel, sContains]
      split_ifs with hzx hxy hzy <;> simp_all [sContains]

/-! ### Claim theorems -/

/-- C3: immediately after the order-created handler runs, the stringified
order id is in the processedOrders set, for every environment (hence
whatever the individual line-item adjustment outcomes were): the add
happens before the adjustment loop and the loop swallows failures. -/
theorem orderCreated_marks_tracked (env : Env) (st : List String) (order : Order) :
    sContains (orderCreatedHandler env st order).st (toString order.id) = true := by
  simp [orderCreatedHandler, updateInventoryForOrder, sContains_sadd]

/-- C4: processing order-cancelled or order-fulfilled for an order id not
in the processedOrders set answers 200, submits no API call at all (so in
particular no inventory mutation), and returns the set unchanged. -/
theorem untracked_terminal_noop (env : Env) (st : List String) (order : Order)
    (h : sContains st (toString order.id) = false) :
    orderCancelledHandler env st order =
      { status := 200, st := st, calls := [],
        obs := Obs.skipUntracked (toString order.id) } ∧
    orderFulfilledHandler env st order =
      { status := 200, st := st, calls := [],
        obs := Obs.skipUntracked (toString order.id) } := by
  constructor <;> simp [orderCancelledHandler, orderFulfilledHandler, h]

/-- C4 evaluation witness at a concrete untracked order. -/
theorem untracked_terminal_noop_witness :
    orderCancelledHandler envW [] { id := 8, line_items := [{ variant_id := 5, quantity := 1 }] } =
      { status := 200, st := [], calls := [], obs := Obs.skipUntracked "8" } :=
  (untracked_terminal_noop envW []
    { id := 8, line_items := [{ variant_id := 5, quantity := 1 }] } (by decide)).1

/-- C10: the order-cancelled and order-fulfilled handlers agree on the
HTTP status, the resulting processedOrders set and the submitted call
sequence for every environment, set state and order body; they differ
only in their log observation. -/
theorem cancelled_fulfilled_equivalent (env : Env) (st : List String) (order : Order) :
    (orderCancelledHandler env st order).status = (orderFulfilledHandler env st order).status ∧
    (orderCancelledHandler env st order).st = (orderFulfilledHandler env st order).st ∧
    (orderCancelledHandler env st order).calls = (orderFulfilledHandler env st order).calls := by
  unfold orderCancelledHandler orderFulfilledHandler
  by_cases h : sContains st (toString order.id) = true <;> simp [h]

/-- C5: verifyWebhook passes control to the handler exactly when the
supplied header equals the recomputed base64 HMAC of the body under the
shared secret, and answers 401 without invoking the handler in every
other case, including a missing header. -/
theorem verifyWebhook_exact_match (hmacBase64 : String → String → String)
    (secret : String) (hmacHeader : Option String) (body : String) :
    (verifyWebhook hmacBase64 secret hmacHeader body = VerifyResult.next ↔
      hmacHeader = some (hmacBase64 secret body)) ∧
    (verifyWebhook hmacBase64 secret hmacHeader body = VerifyResult.unauthorized ↔
      hmacHeader ≠ some (hmacBase64 secret body)) := by
  unfold verifyWebhook
  by_cases h : hmacHeader = some (hmacBase64 secret body) <;> simp [h]

/-- C5 evaluation witness: a matching header passes, a missing one is
rejected, for a concrete stand-in digest function. -/
theorem verifyWebhook_exact_match_witness :
    verifyWebhook (fun s b => s ++ b) "k" (some "kbody") "body" = VerifyResult.next ∧
    verifyWebhook (fun s b => s ++ b) "k" none "body" = VerifyResult.unauthorized := by
  constructor
  · exact (verifyWebhook_exact_match (fun s b => s ++ b) "k" (some "kbody") "body").1.mpr rfl
  · exact (verifyWebhook_exact_match (fun s b => s ++ b) "k" none "body").2.mpr (by simp)

/-- Single-step simulation: after any one handler runs, membership of any
id in the processedOrders set is the ghost tracking step applied to its
previous membership and the branch observation the handler reports. -/
theorem processEvent_set_ghost (env : Env) (st : List String) (ev : Event) (oid : String) :
    sContains (processEvent env st ev).st oid =
      ghostStep (sContains st oid) oid (processEvent env st ev).obs := by
  cases ev with
  | created o =>
      simp [processEvent, orderCreatedHandler, updateInventoryForOrder, ghostStep,
        sContains_sadd]
  | cancelled o =>
      by_cases h : sContains st (toString o.id) = true
      · simp [processEvent, orderCancelledHandler, h, ghostStep, sContains_sdel]
      · simp [processEvent, orderCancelledHandler, h, ghostStep]
  | fulfilled o =>
      by_cases h : sContains st (toString o.id) = true
      · simp [processEvent, orderFulfilledHandler, h, ghostStep, sContains_sdel]
      · simp [processEvent, orderFulfilledHandler, h, ghostStep]

/-- Multi-step simulation: running a sequence of verified events folds the
ghost tracking step over the produced observation stream. -/
theorem runEvents_set_ghost (env : Env) (evs : List Event) :
    ∀ st oid, sContains (runEvents env st evs).1 oid =
      (runEvents env st evs).2.foldl (fun b o => ghostStep b oid o) (sContains st oid) := by
  induction evs with
  | nil => intro st oid; simp [runEvents]
  | cons ev rest ih =>
      intro st oid
      simp only [runEvents, List.foldl_cons]
      rw [← processEvent_set_ghost env st ev oid]
      exact ih _ oid

/-- C1: over every sequence of verified webhook deliveries starting from
the empty processedOrders set, an order id is in the set exactly when the
observation stream records a deduction pass for it with no
restoring/compensating pass completed after it; in particular each of the
three handlers preserves this tracking invariant at every step. -/
theorem tracked_set_invariant (env : Env) (evs : List Event) (oid : String) :
    sContains (runEvents env [] evs).1 oid = ghostTracked oid (runEvents env [] evs).2 := by
  have h := runEvents_set_ghost env evs [] oid
  simpa [ghostTracked, sContains] using h

/-! ### Net-delta lemmas for the lifecycle claim -/

theorem netDeltaAt_append (loc item : Nat) (a b : List ApiCall) :
    netDeltaAt loc item (a ++ b) = netDeltaAt loc item a + netDeltaAt loc item b := by
  induction a with
  | nil => simp [netDeltaAt]
  | cons c cs ih => cases c <;> simp [netDeltaAt, ih, Int.add_assoc]

/-- The trace of an adjustment by q and the trace of an adjustment by
minus q cancel at every (location, item) pair: the two reads contribute
nothing and the single mutating call flips sign. -/
theorem updateInventoryForVariant_mirror (env : Env) (v : Nat) (q : Int) (loc item : Nat) :
    netDeltaAt loc item (updateInventoryForVariant env v (-q)).2 +
      netDeltaAt loc item (updateInventoryForVariant env v q).2 = 0 := by
  unfold updateInventoryForVariant
  cases hv : env.variant_inventory_item v with
  | none => simp [netDeltaAt]
  | some itemId =>
      cases hl : env.inventory_levels itemId with
      | none => simp [hl, netDeltaAt]
      | some levels =>
          cases levels with
          | nil => simp [hl, netDeltaAt]
          | cons lvl rest =>
              by_cases h1 : env.adjust_ok lvl.location_id itemId (-q) <;>
                by_cases h2 : env.adjust_ok lvl.location_id itemId q <;>
                  simp only [hl, h1, h2, if_true, if_false, netDeltaAt] <;>
                    split_ifs <;> ring

/-- The per-order deduction trace and the per-order restore trace cancel
at every (location, item) pair. -/
theorem order_traces_mirror (env : Env) (items : List LineItem) (loc item : Nat) :
    netDeltaAt loc item ((items.map (fun li =>
        (updateInventoryForVariant env li.variant_id (-(li.quantity : Int))).2)).flatten) +
      netDeltaAt loc item ((items.map (fun li =>
        (updateInventoryForVariant env li.variant_id (li.quantity : Int)).2)).flatten) = 0 := by
  induction items with
  | nil => simp [netDeltaAt]
  | cons li rest ih =>
      simp only [List.map_cons, List.flatten_cons, netDeltaAt_append]
      have h := updateInventoryForVariant_mirror env li.variant_id (li.quantity : Int) loc item
      omega

/-- C2: a cancel or fulfil processed while the order is tracked leaves the
id out of the processedOrders set, and across the full lifecycle (create
then cancel, or create then fulfil) the net adjustment delta the service
submits against every (location, inventory item) pair is zero: each
minus-quantity deduction is matched by a plus-quantity adjustment. -/
theorem lifecycle_net_zero (env : Env) (st : List String) (order : Order)
    (h : sContains st (toString order.id) = true) :
    sContains (orderCancelledHandler env st order).st (toString order.id) = false ∧
    sContains (orderFulfilledHandler env st order).st (toString order.id) = false ∧
    (∀ loc item,
      netDeltaAt loc item ((orderCreatedHandler env st order).calls ++
        (orderCancelledHandler env (orderCreatedHandler env st order).st order).calls) = 0) ∧
    (∀ loc item,
      netDeltaAt loc item ((orderCreatedHandler env st order).calls ++
        (orderFulfilledHandler env (orderCreatedHandler env st order).st order).calls) = 0) := by
  have hk2 : sContains (sadd st (toString order.id)) (toString order.id) = true := by
    simp [sContains_sadd]
  refine ⟨?_, ?_, ?_, ?_⟩
  · simp [orderCancelledHandler, h, sContains_sdel]
  · simp [orderFulfilledHandler, h, sContains_sdel]
  · intro loc item
    rw [netDeltaAt_append]
    simp only [orderCreatedHandler, orderCancelledHandler, updateInventoryForOrder]
    rw [if_pos hk2]
    exact order_traces_mirror env order.line_items loc item
  · intro loc item
    rw [netDeltaAt_append]
    simp only [orderCreatedHandler, orderFulfilledHandler, updateInventoryForOrder]
    rw [if_pos hk2]
    exact order_traces_mirror env order.line_items loc item

/-- C2 evaluation witness: order 7 with one line item of variant 5,
created then cancelled, ends untracked with net delta zero at the
resolved (location 3, item 77) pair. -/
theorem lifecycle_net_zero_witness :
    sContains (orderCancelledHandler envW ["7"]
      { id := 7, line_items := [{ variant_id := 5, quantity := 2 }] }).st "7" = false ∧
    netDeltaAt 3 77
      ((orderCreatedHandler envW ["7"]
          { id := 7, line_items := [{ variant_id := 5, quantity := 2 }] }).calls ++
        (orderCancelledHandler envW
          (orderCreatedHandler envW ["7"]
            { id := 7, line_items := [{ variant_id := 5, quantity := 2 }] }).st
          { id := 7, line_items := [{ variant_id := 5, quantity := 2 }] }).calls) = 0 := by
  have h := lifecycle_net_zero envW ["7"]
    { id := 7, line_items := [{ variant_id := 5, quantity := 2 }] } (by decide)
  exact ⟨h.1, h.2.2.1 3 77⟩

/-- C8: order-created for an id already in processedOrders runs the full
per-line-item deduction again and leaves the set unchanged with the id
still tracked: there is no idempotence check, so a redelivered
order-created webhook double-deducts. -/
theorem created_no_idempotence (env : Env) (st : List String) (order : Order)
    (h : sContains st (toString order.id) = true) :
    (orderCreatedHandler env st order).calls =
      (order.line_items.map (fun li =>
        (updateInventoryForVariant env li.variant_id (-(li.quantity : Int))).2)).flatten ∧
    (orderCreatedHandler env st order).st = st ∧
    sContains (orderCreatedHandler env st order).st (toString order.id) = true := by
  refine ⟨rfl, ?_, ?_⟩
  · simp [orderCreatedHandler, updateInventoryForOrder, sadd, h]
  · simp [orderCreatedHandler, updateInventoryForOrder, sContains_sadd]

/-- C8 evaluation witness: order 7 already tracked still produces the full
deduction trace and stays tracked. -/
theorem created_no_idempotence_witness :
    (orderCreatedHandler envW ["7"]
      { id := 7, line_items := [{ variant_id := 5, quantity := 2 }] }).calls =
        [ApiCall.getVariant 5, ApiCall.getLevels 77, ApiCall.adjust 3 77 (-2)] ∧
    (orderCreatedHandler envW ["7"]
      { id := 7, line_items := [{ variant_id := 5, quantity := 2 }] }).st = ["7"] := by
  have h := created_no_idempotence envW ["7"]
    { id := 7, line_items := [{ variant_id := 5, quantity := 2 }] } (by decide)
  exact ⟨h.1.trans (by decide), h.2.1⟩

/-- Splitting a mapped-and-flattened trace at one position: the segment
contributed by the item at that position sits between the segments of the
earlier and the later items. -/
theorem flatten_map_split {α β : Type} (f : α → List β) :
    ∀ (l : List α) (i : Nat) (hi : i < l.length),
      (l.map f).flatten =
        ((l.take i).map f).flatten ++ f (l.get ⟨i, hi⟩) ++
          ((l.drop (i + 1)).map f).flatten := by
  intro l
  induction l with
  | nil => intro i hi; simp at hi
  | cons x xs ih =>
      intro i hi
      cases i with
      | zero => simp
      | succ j =>
          have hj : j < xs.length := by simpa using hi
          simp only [List.take_succ_cons, List.drop_succ_cons, List.map_cons,
            List.flatten_cons, List.get_cons_succ]
          rw [ih j hj]
          simp [List.append_assoc]

/-- C7: each webhook processing loop answers 200 and, at every line-item
position, the submitted trace splits into the earlier items' attempts,
this item's full standalone attempt, and the later items' attempts: one
line item's failure never suppresses the attempts for the others, and the
response does not depend on how many attempts failed. -/
theorem per_item_independent (env : Env) (st : List String) (order : Order)
    (h : sContains st (toString order.id) = true)
    (i : Nat) (hi : i < order.line_items.length) :
    (orderCreatedHandler env st order).status = 200 ∧
    (orderCancelledHandler env st order).status = 200 ∧
    (orderFulfilledHandler env st order).status = 200 ∧
    (orderCreatedHandler env st order).calls =
      ((order.line_items.take i).map (fun li =>
          (updateInventoryForVariant env li.variant_id (-(li.quantity : Int))).2)).flatten ++
        (updateInventoryForVariant env (order.line_items.get ⟨i, hi⟩).variant_id
          (-(((order.line_items.get ⟨i, hi⟩).quantity : Int)))).2 ++
        ((order.line_items.drop (i + 1)).map (fun li =>
          (updateInventoryForVariant env li.variant_id (-(li.quantity : Int))).2)).flatten ∧
    (orderCancelledHandler env st order).calls =
      ((order.line_items.take i).map (fun li =>
          (updateInventoryForVariant env li.variant_id (li.quantity : Int)).2)).flatten ++
        (updateInventoryForVariant env (order.line_items.get ⟨i, hi⟩).variant_id
          ((order.line_items.get ⟨i, hi⟩).quantity : Int)).2 ++
        ((order.line_items.drop (i + 1)).map (fun li =>
          (updateInventoryForVariant env li.variant_id (li.quantity : Int)).2)).flatten ∧
    (orderFulfilledHandler env st order).calls =
      ((order.line_items.take i).map (fun li =>
          (updateInventoryForVariant env li.variant_id (li.quantity : Int)).2)).flatten ++
        (updateInventoryForVariant env (order.line_items.get ⟨i, hi⟩).variant_id
          ((order.line_items.get ⟨i, hi⟩).quantity : Int)).2 ++
        ((order.line_items.drop (i + 1)).map (fun li =>
          (updateInventoryForVariant env li.variant_id (li.quantity : Int)).2)).flatten := by
  refine ⟨rfl, ?_, ?_, ?_, ?_, ?_⟩
  · simp [orderCancelledHandler, h]
  · simp [orderFulfilledHandler, h]
  · simp only [orderCreatedHandler, updateInventoryForOrder]
    exact flatten_map_split _ order.line_items i hi
  · simp only [orderCancelledHandler]
    rw [if_pos h]
    exact flatten_map_split _ order.line_items i hi
  · simp only [orderFulfilledHandler]
    rw [if_pos h]
    exact flatten_map_split _ order.line_items i hi

/-- C7 evaluation witness: order 7 with a first item whose variant lookup
fails and a second that succeeds; the second attempt is still made and the
status is 200. -/
theorem per_item_independent_witness :
    (orderCreatedHandler envW ["7"]
        { id := 7, line_items := [{ variant_id := 4, quantity := 1 },
                                  { variant_id := 5, quantity := 2 }] }).status = 200 ∧
    (orderCreatedHandler envW ["7"]
        { id := 7, line_items := [{ variant_id := 4, quantity := 1 },
                                  { variant_id := 5, quantity := 2 }] }).calls =
      [ApiCall.getVariant 4] ++
        [ApiCall.getVariant 5, ApiCall.getLevels 77, ApiCall.adjust 3 77 (-2)] ++ [] := by
  have h := per_item_independent envW ["7"]
    { id := 7, line_items := [{ variant_id := 4, quantity := 1 },
                              { variant_id := 5, quantity := 2 }] } (by decide) 1 (by decide)
  exact ⟨h.1, h.2.2.2.1.trans (by decide)⟩

/-- C6: updateInventoryForVariant resolves the variant to its inventory
item, resolves the item to its levels, selects the first level's location
and submits exactly one adjustment carrying (that location, the item, the
delta); a successful invocation therefore makes exactly two reads and one
mutation, and when the level list comes back empty the trace is the two
reads with no mutating call. -/
theorem adjust_call_shape (env : Env) (v : Nat) (d : Int) :
    (∀ itemId lvl rest, env.variant_inventory_item v = some itemId →
        env.inventory_levels itemId = some (lvl :: rest) →
        (updateInventoryForVariant env v d).2 =
          [ApiCall.getVariant v, ApiCall.getLevels itemId,
           ApiCall.adjust lvl.location_id itemId d]) ∧
    ((updateInventoryForVariant env v d).1 = Except.ok () →
        countReads (updateInventoryForVariant env v d).2 = 2 ∧
        countMutations (updateInventoryForVariant env v d).2 = 1) ∧
    (∀ itemId, env.variant_inventory_item v = some itemId →
        env.inventory_levels itemId = some [] →
        (updateInventoryForVariant env v d).2 =
          [ApiCall.getVariant v, ApiCall.getLevels itemId] ∧
        countMutations (updateInventoryForVariant env v d).2 = 0) := by
  refine ⟨?_, ?_, ?_⟩
  · intro itemId lvl rest hv hl
    by_cases hadj : env.adjust_ok lvl.location_id itemId d <;>
      simp [updateInventoryForVariant, hv, hl, hadj]
  · intro hok
    unfold updateInventoryForVariant at hok ⊢
    cases hv : env.variant_inventory_item v with
    | none => simp [hv] at hok
    | some itemId =>
        cases hl : env.inventory_levels itemId with
        | none => simp [hv, hl] at hok
        | some levels =>
            cases levels with
            | nil => simp [hv, hl] at hok
            | cons lvl rest =>
                by_cases hadj : env.adjust_ok lvl.location_id itemId d
                · simp [hv, hl, hadj, countReads, countMutations]
                · simp [hv, hl, hadj] at hok
  · intro itemId hv hl
    simp [updateInventoryForVariant, hv, hl, countMutations]

/-- C6 evaluation witness: variant 5 resolves fully and yields the read,
read, adjust trace with two reads and one mutation; variant 6 hits the
empty-level failure and submits no mutation. -/
theorem adjust_call_shape_witness :
    (updateInventoryForVariant envW 5 (-2)).2 =
      [ApiCall.getVariant 5, ApiCall.getLevels 77, ApiCall.adjust 3 77 (-2)] ∧
    countReads (updateInventoryForVariant envW 5 (-2)).2 = 2 ∧
    countMutations (updateInventoryForVariant envW 5 (-2)).2 = 1 ∧
    countMutations (updateInventoryForVariant envW 6 (-2)).2 = 0 := by
  have h1 := adjust_call_shape envW 5 (-2)
  have h2 := adjust_call_shape envW 6 (-2)
  exact ⟨h1.1 77 { location_id := 3, available := 10 } [] rfl rfl,
    (h1.2.1 rfl).1, (h1.2.1 rfl).2, (h2.2.2 88 rfl rfl).2⟩

/-- The test-endpoint loop succeeds exactly when every line item's
standalone adjustment succeeds (the loop stops at the first failure, and
when one fails the overall outcome is failure). -/
theorem runTestItems_all (env : Env) (items : List LineItem) :
    (runTestItems env items).1 = items.all (fun li =>
      (updateInventoryForVariant env li.variant_id (-(li.quantity : Int))).1.isOk) := by
  induction items with
  | nil => simp [runTestItems]
  | cons li rest ih =>
      simp only [runTestItems, List.all_cons]
      cases hr : (updateInventoryForVariant env li.variant_id (-(li.quantity : Int))).1 with
      | ok u => simp [hr, ih, Except.isOk, Except.toBool]
      | error e => simp [hr, Except.isOk, Except.toBool]

/-- C9 counterexample: a body whose orderId is 0 — present, not missing —
with well-formed line items and a platform where every adjustment would
succeed is answered 400 with no calls made, because the JavaScript guard
treats 0 as falsy; the claim as stated predicts processing with a 200
response here. -/
theorem test_endpoint_counterexample :
    ({ orderId := some 0,
       lineItems := some [{ variant_id := 5, quantity := 2 }] } : TestBody).orderId =
        some 0 ∧
    ({ orderId := some 0,
       lineItems := some [{ variant_id := 5, quantity := 2 }] } : TestBody).lineItems =
        some [{ variant_id := 5, quantity := 2 }] ∧
    testProcessOrder envW []
      { orderId := some 0, lineItems := some [{ variant_id := 5, quantity := 2 }] } =
        (400, [], []) :=
  ⟨rfl, rfl, rfl⟩

/-- C9 amended: POST /test/process-order answers 400 with no calls when
orderId or lineItems is missing or when orderId is 0 (JavaScript treats a
falsy orderId like a missing one); otherwise it never touches the
processedOrders set and answers 200 when every line-item adjustment
succeeds and 500 when one fails. -/
theorem test_endpoint_behaviour (env : Env) (st : List String) (body : TestBody) :
    ((body.orderId = none ∨ body.orderId = some 0 ∨ body.lineItems = none) →
      testProcessOrder env st body = (400, st, [])) ∧
    (∀ oid items, body.orderId = some oid → body.lineItems = some items → oid ≠ 0 →
      (testProcessOrder env st body).2.1 = st ∧
      (testProcessOrder env st body).1 =
        (if items.all (fun li =>
            (updateInventoryForVariant env li.variant_id (-(li.quantity : Int))).1.isOk)
          then 200 else 500)) := by
  obtain ⟨boid, bitems⟩ := body
  constructor
  · rintro (h | h | h)
    · simp only at h; subst h; cases bitems <;> simp [testProcessOrder]
    · simp only at h; subst h; cases bitems <;> simp [testProcessOrder]
    · simp only at h; subst h; cases boid <;> simp [testProcessOrder]
  · intro oid items h1 h2 h3
    simp only at h1 h2
    subst h1; subst h2
    simp [testProcessOrder, h3, runTestItems_all]

/-- C9 amended-claim evaluation witness: a missing orderId yields 400; a
nonzero orderId with one succeeding item leaves the set alone and yields
200. -/
theorem test_endpoint_behaviour_witness :
    testProcessOrder envW ["9"] { orderId := none, lineItems := some [] } =
      (400, ["9"], []) ∧
    (testProcessOrder envW ["9"]
      { orderId := some 4, lineItems := some [{ variant_id := 5, quantity := 2 }] }).2.1 =
        ["9"] ∧
    (testProcessOrder envW ["9"]
      { orderId := some 4, lineItems := some [{ variant_id := 5, quantity := 2 }] }).1 =
        200 := by
  have h1 := (test_endpoint_behaviour envW ["9"]
    { orderId := none, lineItems := some [] }).1 (Or.inl rfl)
  have h2 := (test_endpoint_behaviour envW ["9"]
    { orderId := some 4, lineItems := some [{ variant_id := 5, quantity := 2 }] }).2
    4 [{ variant_id := 5, quantity := 2 }] rfl rfl (by decide)
  refine ⟨h1, h2.1, h2.2.trans (by decide)⟩

end ShopifyInventory
